import Mathlib

/-!
Verification of the tax-computation core of the Nigeria Tax Calculator
(`newtax.py`): the progressive bracket engine, the PIT and CIT
calculators, and the old-vs-new comparator route.  Monetary amounts and
rates are modelled as exact rationals; the infinite upper bound
`float(inf)` of the final bracket is modelled as `none` in an
`Option ℚ` bound.
-/

/-- One entry of a bracket table: an upper bound (`none` = unbounded)
and a marginal rate, mirroring the `(limit, rate)` pairs of the source. -/
structure TaxBracket where
  limit : Option ℚ
  rate : ℚ
deriving DecidableEq, Repr

/-- New-law PIT brackets (`PIT_BRACKETS_NEW` in the source). -/
def PIT_BRACKETS_NEW : List TaxBracket :=
  [⟨some 800000, 0.00⟩,
   ⟨some 3200000, 0.15⟩,
   ⟨some 7200000, 0.25⟩,
   ⟨some 12200000, 0.30⟩,
   ⟨some 22200000, 0.35⟩,
   ⟨none, 0.40⟩]

/-- Old-law PIT brackets (`PIT_BRACKETS_OLD` in the source). -/
def PIT_BRACKETS_OLD : List TaxBracket :=
  [⟨some 300000, 0.07⟩,
   ⟨some 600000, 0.11⟩,
   ⟨some 1100000, 0.15⟩,
   ⟨some 1600000, 0.19⟩,
   ⟨some 3200000, 0.21⟩,
   ⟨none, 0.24⟩]

/-- Constant `CGT_RATE_NEW` of the source. -/
def CGT_RATE_NEW : ℚ := 0.10

/-- Constant `CGT_RATE_OLD` of the source. -/
def CGT_RATE_OLD : ℚ := 0.05

/-- Constant `HOUSING_ALLOWANCE_CAP` of the source. -/
def HOUSING_ALLOWANCE_CAP : ℚ := 500000

/-- The loop body of `calculate_progressive_tax`, with the running
`prev` bound made explicit.  `prev = none` models the state after the
unbounded bracket assigned `prev = inf`: the loop condition
`amount <= prev` is then always true, so the remaining iterations
contribute nothing.  `min amount (b.limit.getD amount)` is
`min(amount, limit)`, since the minimum against an infinite limit is
`amount` itself. -/
def progTaxAux (amount : ℚ) : List TaxBracket → Option ℚ → ℚ
  | [], _ => 0
  | _ :: _, none => 0
  | b :: bs, some p =>
    if amount ≤ p then 0
    else (min amount (b.limit.getD amount) - p) * b.rate + progTaxAux amount bs b.limit

/-- Source function `calculate_progressive_tax(amount, brackets)`:
iterate the brackets with `prev` starting at `0`, breaking as soon as
`amount <= prev`, otherwise adding `(min(amount, limit) - prev) * rate`
and advancing `prev` to `limit`. -/
def calculate_progressive_tax (amount : ℚ) (brackets : List TaxBracket) : ℚ :=
  progTaxAux amount brackets (some 0)

/-- Bounds of a bracket table are valid from running bound `p`:
every finite bound strictly exceeds the previous one, and exactly the
last bracket is unbounded. -/
def boundsOk (p : ℚ) : List TaxBracket → Bool
  | [] => false
  | b :: bs =>
    match b.limit, bs with
    | none, [] => true
    | none, _ :: _ => false
    | some q, _ => decide (p < q) && boundsOk q bs

/-- All rates of a bracket table lie in the interval from 0 to 1. -/
def ratesOk (bs : List TaxBracket) : Bool :=
  bs.all (fun b => decide (0 ≤ b.rate) && decide (b.rate ≤ 1))

/-- A valid bracket table: upper bounds strictly increasing starting
above the initial running bound 0, last bound unbounded, rates in
the interval from 0 to 1. -/
def validTable (bs : List TaxBracket) : Bool :=
  boundsOk 0 bs && ratesOk bs

/-- Modelled from the spec: the Bracket Engine contract summarised as
"the sum across all brackets whose slice is positive" — each bracket
contributes its clamped slice `max 0 (min(amount, upperBound) - prev)`
times its rate, with no early exit from the iteration.  Written from
the words of section 4.1 of the design, to be compared with the
source-derived `calculate_progressive_tax`. -/
def specSliceSum (amount : ℚ) : List TaxBracket → Option ℚ → ℚ
  | [], _ => 0
  | _ :: _, none => 0
  | b :: bs, some p =>
    max 0 (min amount (b.limit.getD amount) - p) * b.rate + specSliceSum amount bs b.limit

/-- Modelled from the spec: `computeProgressiveTax` as the clamped
slice sum starting from a previous bound of 0. -/
def computeProgressiveTax (amount : ℚ) (bs : List TaxBracket) : ℚ :=
  specSliceSum amount bs (some 0)

/-- The largest finite upper bound reachable along the chain of
brackets, starting from running bound `p` (used to state the behaviour
of amounts beyond every finite bound). -/
def chainTop (p : ℚ) : List TaxBracket → ℚ
  | [] => p
  | b :: bs => chainTop (b.limit.getD p) bs

/-- The last finite upper bound of a bracket table (0 when the table
has a single, unbounded bracket). -/
def lastFiniteBound (bs : List TaxBracket) : ℚ :=
  chainTop 0 bs

/-- The rate of the last bracket of a table (the unbounded bracket,
for a valid table). -/
def finalRate : List TaxBracket → ℚ
  | [] => 0
  | [b] => b.rate
  | _ :: bs => finalRate bs

/-- The flat record of request fields consumed by the calculators: the
JSON body of a `/calculate` request, with every numeric field read via
`float(data.get(key, 0))` and the `tax_type` discriminator. -/
structure InputData where
  tax_type : String
  basic_salary : ℚ
  housing_allowance : ℚ
  transport_allowance : ℚ
  other_allowances : ℚ
  pension : ℚ
  nhf : ℚ
  life_insurance : ℚ
  capital_gains : ℚ
  digital_assets : ℚ
  turnover : ℚ
  profit : ℚ
deriving DecidableEq, Repr

/-- The dictionary returned by `calculate_pit`. -/
structure PITResult where
  law : String
  gross_income : ℚ
  cra : ℚ
  taxable_income : ℚ
  annual_paye : ℚ
  monthly_paye : ℚ
  capital_gains_tax : ℚ
  total_tax : ℚ
  net_income : ℚ
  monthly_take_home : ℚ
  housing_allowance_capped : ℚ
  housing_raw : ℚ
  first_tax_free : ℚ
deriving DecidableEq, Repr

/-- Source function `calculate_pit(data, use_old_law)`.  The five
regime constants (`cra`, `cgt_rate`, `brackets`, `law_label`,
`first_tax_free`) are set by the single `if use_old_law` branch of the
source, here written as one conditional per constant. -/
def calculate_pit (data : InputData) (use_old_law : Bool) : PITResult :=
  let basic := data.basic_salary
  let housing_raw := data.housing_allowance
  let housing := if use_old_law then housing_raw else min housing_raw HOUSING_ALLOWANCE_CAP
  let transport := data.transport_allowance
  let others := data.other_allowances
  let pension := data.pension
  let nhf := data.nhf
  let life := data.life_insurance
  let capital_gains := data.capital_gains
  let digital_assets := data.digital_assets
  let gross := basic + housing + transport + others
  let cra := if use_old_law then 0.01 * gross + 200000 else 0.20 * gross + 200000
  let cgt_rate := if use_old_law then CGT_RATE_OLD else CGT_RATE_NEW
  let brackets := if use_old_law then PIT_BRACKETS_OLD else PIT_BRACKETS_NEW
  let law_label := if use_old_law then "OLD" else "NEW"
  let first_tax_free : ℚ := if use_old_law then 0 else 800000
  let deductions := pension + nhf + life
  let taxable_income := max 0 (gross - cra - deductions)
  let annual_paye := calculate_progressive_tax taxable_income brackets
  let monthly_paye := annual_paye / 12
  let cgt := (capital_gains + digital_assets) * cgt_rate
  let total_tax := annual_paye + cgt
  let net_income := gross + capital_gains + digital_assets - total_tax
  let monthly_take_home := net_income / 12
  { law := law_label
    gross_income := gross
    cra := cra
    taxable_income := taxable_income
    annual_paye := annual_paye
    monthly_paye := monthly_paye
    capital_gains_tax := cgt
    total_tax := total_tax
    net_income := net_income
    monthly_take_home := monthly_take_home
    housing_allowance_capped := housing
    housing_raw := housing_raw
    first_tax_free := first_tax_free }

/-- The dictionary returned by `calculate_cit`. -/
structure CITResult where
  law : String
  company_size : String
  turnover : ℚ
  profit : ℚ
  cit_rate : ℚ
  cit_payable : ℚ
  net_profit : ℚ
  monthly_net_profit : ℚ
deriving DecidableEq, Repr

/-- Source function `calculate_cit(data, use_old_law)`. -/
def calculate_cit (data : InputData) (use_old_law : Bool) : CITResult :=
  let turnover := data.turnover
  let profit := data.profit
  let rate : ℚ :=
    if use_old_law then
      if turnover ≤ 25000000 then 0.0
      else if turnover ≤ 100000000 then 0.20
      else 0.30
    else
      if turnover ≤ 50000000 then 0.0
      else if turnover ≤ 150000000 then 0.18
      else 0.25
  let company_size :=
    if use_old_law then
      if turnover ≤ 25000000 then "Small Company"
      else if turnover ≤ 100000000 then "Medium Company"
      else "Large Company"
    else
      if turnover ≤ 50000000 then "Small Company"
      else if turnover ≤ 150000000 then "Medium Company"
      else "Large Company"
  let law_label := if use_old_law then "OLD" else "NEW"
  let cit := profit * rate
  let net_profit := profit - cit
  let monthly_net_profit := net_profit / 12
  { law := law_label
    company_size := company_size
    turnover := turnover
    profit := profit
    cit_rate := rate * 100
    cit_payable := cit
    net_profit := net_profit
    monthly_net_profit := monthly_net_profit }

/-- The comparison sub-object assembled by the `/calculate` route:
`tax_difference`, the net income/profit difference, the monthly
difference and the textual recommendation. -/
structure Comparison where
  tax_difference : ℚ
  net_difference : ℚ
  monthly_difference : ℚ
  recommendation : String
deriving DecidableEq, Repr

/-- The JSON response of the `/calculate` route: old result, new
result and comparison, for the PIT branch or the CIT branch. -/
inductive CalcResponse where
  | pitResp (oldR newR : PITResult) (comparison : Comparison)
  | citResp (oldR newR : CITResult) (comparison : Comparison)
deriving DecidableEq, Repr

/-- Extract the comparison sub-object from either branch. -/
def CalcResponse.comparison : CalcResponse → Comparison
  | .pitResp _ _ c => c
  | .citResp _ _ c => c

/-- The branch discriminator of a response. -/
def CalcResponse.isCit : CalcResponse → Bool
  | .pitResp _ _ _ => false
  | .citResp _ _ _ => true

/-- The `/calculate` route of the source: dispatch on the `tax_type`
field; the PIT branch runs `calculate_pit` under both laws, every
other value of `tax_type` runs `calculate_cit` under both laws; both
branches compute the differences new-minus-old and the recommendation
`"Better under NEW law"` exactly when the net difference is positive. -/
def calculate (data : InputData) : CalcResponse :=
  if data.tax_type = "PIT" then
    let old_result := calculate_pit data true
    let new_result := calculate_pit data false
    let tax_diff := new_result.total_tax - old_result.total_tax
    let net_diff := new_result.net_income - old_result.net_income
    let monthly_diff := new_result.monthly_take_home - old_result.monthly_take_home
    let recommendation := if net_diff > 0 then "Better under NEW law" else "Better under OLD law"
    .pitResp old_result new_result
      { tax_difference := tax_diff
        net_difference := net_diff
        monthly_difference := monthly_diff
        recommendation := recommendation }
  else
    let old_result := calculate_cit data true
    let new_result := calculate_cit data false
    let tax_diff := new_result.cit_payable - old_result.cit_payable
    let net_diff := new_result.net_profit - old_result.net_profit
    let monthly_diff := new_result.monthly_net_profit - old_result.monthly_net_profit
    let recommendation := if net_diff > 0 then "Better under NEW law" else "Better under OLD law"
    .citResp old_result new_result
      { tax_difference := tax_diff
        net_difference := net_diff
        monthly_difference := monthly_diff
        recommendation := recommendation }

/-- A concrete request whose `tax_type` is neither `"PIT"` nor
`"CIT"`, used to exhibit how the route treats unknown discriminators. -/
def unknownTypeRequest : InputData :=
  { tax_type := "GIFT"
    basic_salary := 0
    housing_allowance := 0
    transport_allowance := 0
    other_allowances := 0
    pension := 0
    nhf := 0
    life_insurance := 0
    capital_gains := 0
    digital_assets := 0
    turnover := 30000000
    profit := 1000000 }

/-- A concrete PIT request (the worked example of the spec). -/
def pitRequest : InputData :=
  { tax_type := "PIT"
    basic_salary := 1000000
    housing_allowance := 600000
    transport_allowance := 0
    other_allowances := 0
    pension := 0
    nhf := 0
    life_insurance := 0
    capital_gains := 0
    digital_assets := 0
    turnover := 0
    profit := 0 }

/-- A concrete CIT request (the worked example of the spec). -/
def citRequest : InputData :=
  { tax_type := "CIT"
    basic_salary := 0
    housing_allowance := 0
    transport_allowance := 0
    other_allowances := 0
    pension := 0
    nhf := 0
    life_insurance := 0
    capital_gains := 0
    digital_assets := 0
    turnover := 80000000
    profit := 10000000 }

/-- A concrete all-zero CIT request, whose old and new results agree. -/
def zeroCitRequest : InputData :=
  { tax_type := "CIT"
    basic_salary := 0
    housing_allowance := 0
    transport_allowance := 0
    other_allowances := 0
    pension := 0
    nhf := 0
    life_insurance := 0
    capital_gains := 0
    digital_assets := 0
    turnover := 0
    profit := 0 }

/-- A concrete CIT request of a large company with a negative profit. -/
def lossRequest : InputData :=
  { tax_type := "CIT"
    basic_salary := 0
    housing_allowance := 0
    transport_allowance := 0
    other_allowances := 0
    pension := 0
    nhf := 0
    life_insurance := 0
    capital_gains := 0
    digital_assets := 0
    turnover := 200000000
    profit := -500000 }

/-! ## Bracket-engine lemmas -/

theorem progTaxAux_none (amount : ℚ) (bs : List TaxBracket) :
    progTaxAux amount bs none = 0 := by
  cases bs <;> rfl

theorem specSliceSum_none (amount : ℚ) (bs : List TaxBracket) :
    specSliceSum amount bs none = 0 := by
  cases bs <;> rfl

theorem ratesOk_cons {b : TaxBracket} {bs : List TaxBracket} (h : ratesOk (b :: bs) = true) :
    (0 ≤ b.rate ∧ b.rate ≤ 1) ∧ ratesOk bs = true := by
  simpa [ratesOk, List.all_cons, Bool.and_eq_true, decide_eq_true_eq] using h

/-- Below the running bound, every remaining clamped slice is empty. -/
theorem specSliceSum_of_le (amount : ℚ) :
    ∀ (bs : List TaxBracket) (p : ℚ), boundsOk p bs = true → amount ≤ p →
      specSliceSum amount bs (some p) = 0 := by
  intro bs
  induction bs with
  | nil => intro p hb _; simp [boundsOk] at hb
  | cons b bs ih =>
    intro p hb hle
    obtain ⟨lim, rate⟩ := b
    cases lim with
    | none =>
      have h0 : amount - p ≤ 0 := by linarith
      simp only [specSliceSum, Option.getD, min_self, specSliceSum_none]
      rw [max_eq_left h0]
      ring
    | some q =>
      simp only [boundsOk, Bool.and_eq_true, decide_eq_true_eq] at hb
      obtain ⟨hpq, hb2⟩ := hb
      have h0 : min amount q - p ≤ 0 := by
        have := min_le_left amount q
        linarith
      simp only [specSliceSum, Option.getD]
      rw [max_eq_left h0, ih q hb2 (le_trans hle (le_of_lt hpq))]
      ring

/-- The early-exit loop of the source equals the clamped slice sum of
the specification, for any table whose bounds are valid from the
current running bound. -/
theorem progTaxAux_eq_specSliceSum (amount : ℚ) :
    ∀ (bs : List TaxBracket) (p : ℚ), boundsOk p bs = true →
      progTaxAux amount bs (some p) = specSliceSum amount bs (some p) := by
  intro bs
  induction bs with
  | nil => intro p hb; simp [boundsOk] at hb
  | cons b bs ih =>
    intro p hb
    obtain ⟨lim, rate⟩ := b
    by_cases hle : amount ≤ p
    · rw [specSliceSum_of_le amount (⟨lim, rate⟩ :: bs) p hb hle]
      simp [progTaxAux, hle]
    · push_neg at hle
      cases lim with
      | none =>
        cases bs with
        | nil =>
          simp only [progTaxAux, specSliceSum, Option.getD, min_self, if_neg (not_le.mpr hle),
            progTaxAux_none, specSliceSum_none]
          rw [max_eq_right (by linarith : (0:ℚ) ≤ amount - p)]
        | cons b' bs' => simp [boundsOk] at hb
      | some q =>
        simp only [boundsOk, Bool.and_eq_true, decide_eq_true_eq] at hb
        obtain ⟨hpq, hb2⟩ := hb
        have hmin : p < min amount q := lt_min hle hpq
        simp only [progTaxAux, specSliceSum, Option.getD, if_neg (not_le.mpr hle)]
        rw [max_eq_right (by linarith : (0:ℚ) ≤ min amount q - p), ih q hb2]

/-- The loop value is nonnegative for tables with valid bounds and
nonnegative rates. -/
theorem progTaxAux_nonneg (amount : ℚ) :
    ∀ (bs : List TaxBracket) (p : ℚ), boundsOk p bs = true → ratesOk bs = true →
      0 ≤ progTaxAux amount bs (some p) := by
  intro bs
  induction bs with
  | nil => intro p hb _; simp [boundsOk] at hb
  | cons b bs ih =>
    intro p hb hr
    obtain ⟨⟨hr0, _⟩, hr2⟩ := ratesOk_cons hr
    obtain ⟨lim, rate⟩ := b
    by_cases hle : amount ≤ p
    · simp [progTaxAux, hle]
    · push_neg at hle
      cases lim with
      | none =>
        simp only [progTaxAux, Option.getD, min_self, if_neg (not_le.mpr hle), progTaxAux_none]
        have : (0:ℚ) ≤ (amount - p) * rate := mul_nonneg (by linarith) hr0
        linarith
      | some q =>
        simp only [boundsOk, Bool.and_eq_true, decide_eq_true_eq] at hb
        obtain ⟨hpq, hb2⟩ := hb
        have hmin : p < min amount q := lt_min hle hpq
        simp only [progTaxAux, Option.getD, if_neg (not_le.mpr hle)]
        have h1 : (0:ℚ) ≤ (min amount q - p) * rate := mul_nonneg (by linarith) hr0
        have h2 := ih q hb2 hr2
        linarith

/-- The loop value is monotone in the amount. -/
theorem progTaxAux_mono {a b : ℚ} (hab : a ≤ b) :
    ∀ (bs : List TaxBracket) (p : ℚ), boundsOk p bs = true → ratesOk bs = true →
      progTaxAux a bs (some p) ≤ progTaxAux b bs (some p) := by
  intro bs
  induction bs with
  | nil => intro p hb _; simp [boundsOk] at hb
  | cons c bs ih =>
    intro p hb hr
    obtain ⟨⟨hr0, _⟩, hr2⟩ := ratesOk_cons hr
    obtain ⟨lim, rate⟩ := c
    by_cases hle : a ≤ p
    · calc progTaxAux a (⟨lim, rate⟩ :: bs) (some p) = 0 := by simp [progTaxAux, hle]
        _ ≤ progTaxAux b (⟨lim, rate⟩ :: bs) (some p) := progTaxAux_nonneg b _ p hb hr
    · push_neg at hle
      have hbp : p < b := lt_of_lt_of_le hle hab
      cases lim with
      | none =>
        simp only [progTaxAux, Option.getD, min_self, if_neg (not_le.mpr hle),
          if_neg (not_le.mpr hbp), progTaxAux_none]
        have : (a - p) * rate ≤ (b - p) * rate := by
          apply mul_le_mul_of_nonneg_right _ hr0
          linarith
        linarith
      | some q =>
        simp only [boundsOk, Bool.and_eq_true, decide_eq_true_eq] at hb
        obtain ⟨hpq, hb2⟩ := hb
        simp only [progTaxAux, Option.getD, if_neg (not_le.mpr hle), if_neg (not_le.mpr hbp)]
        have hterm : (min a q - p) * rate ≤ (min b q - p) * rate := by
          apply mul_le_mul_of_nonneg_right _ hr0
          have : min a q ≤ min b q := min_le_min hab (le_refl q)
          linarith
        have := ih q hb2 hr2
        linarith

/-- The loop value never exceeds the part of the amount above the
running bound, when every rate is at most 1. -/
theorem progTaxAux_le (a : ℚ) :
    ∀ (bs : List TaxBracket) (p : ℚ), boundsOk p bs = true → ratesOk bs = true →
      progTaxAux a bs (some p) ≤ max 0 (a - p) := by
  intro bs
  induction bs with
  | nil => intro p hb _; simp [boundsOk] at hb
  | cons c bs ih =>
    intro p hb hr
    obtain ⟨⟨hr0, hr1⟩, hr2⟩ := ratesOk_cons hr
    obtain ⟨lim, rate⟩ := c
    by_cases hle : a ≤ p
    · simp [progTaxAux, hle]
    · push_neg at hle
      cases lim with
      | none =>
        simp only [progTaxAux, Option.getD, min_self, if_neg (not_le.mpr hle), progTaxAux_none]
        have h1 : (a - p) * rate ≤ (a - p) * 1 :=
          mul_le_mul_of_nonneg_left hr1 (by linarith)
        have h2 : a - p ≤ max 0 (a - p) := le_max_right 0 (a - p)
        linarith
      | some q =>
        simp only [boundsOk, Bool.and_eq_true, decide_eq_true_eq] at hb
        obtain ⟨hpq, hb2⟩ := hb
        simp only [progTaxAux, Option.getD, if_neg (not_le.mpr hle)]
        have hrec := ih q hb2 hr2
        have hmax2 : a - p ≤ max 0 (a - p) := le_max_right 0 (a - p)
        rcases le_or_lt a q with haq | haq
        · rw [min_eq_left haq]
          have hterm : (a - p) * rate ≤ a - p := by
            have h1 : (a - p) * rate ≤ (a - p) * 1 :=
              mul_le_mul_of_nonneg_left hr1 (by linarith)
            linarith
          rw [max_eq_left (by linarith : a - q ≤ 0)] at hrec
          linarith
        · rw [min_eq_right (le_of_lt haq)]
          have hterm : (q - p) * rate ≤ q - p := by
            have h1 : (q - p) * rate ≤ (q - p) * 1 :=
              mul_le_mul_of_nonneg_left hr1 (by linarith)
            linarith
          rw [max_eq_right (by linarith : (0:ℚ) ≤ a - q)] at hrec
          linarith

/-- One-step unfolding of the loop at a bracket with a finite bound. -/
theorem progTaxAux_cons_some (amount p q r : ℚ) (bs : List TaxBracket) :
    progTaxAux amount (⟨some q, r⟩ :: bs) (some p) =
      if amount ≤ p then 0
      else (min amount q - p) * r + progTaxAux amount bs (some q) := rfl

/-- One-step unfolding of the loop at the unbounded bracket. -/
theorem progTaxAux_cons_none (amount p r : ℚ) (bs : List TaxBracket) :
    progTaxAux amount (⟨none, r⟩ :: bs) (some p) =
      if amount ≤ p then 0 else (amount - p) * r + progTaxAux amount bs none := by
  have h : progTaxAux amount (⟨none, r⟩ :: bs) (some p) =
      if amount ≤ p then 0 else (min amount amount - p) * r + progTaxAux amount bs none := rfl
  rw [h, min_self]

/-- The running bound never exceeds the top of a valid chain. -/
theorem le_chainTop :
    ∀ (bs : List TaxBracket) (p : ℚ), boundsOk p bs = true → p ≤ chainTop p bs := by
  intro bs
  induction bs with
  | nil => intro p hb; simp [boundsOk] at hb
  | cons c bs ih =>
    intro p hb
    obtain ⟨lim, rate⟩ := c
    cases lim with
    | none =>
      cases bs with
      | nil => simp [chainTop]
      | cons b' bs' => simp [boundsOk] at hb
    | some q =>
      simp only [boundsOk, Bool.and_eq_true, decide_eq_true_eq] at hb
      obtain ⟨hpq, hb2⟩ := hb
      have : q ≤ chainTop q bs := ih q hb2
      simpa [chainTop, Option.getD] using le_trans (le_of_lt hpq) this

/-- Above the top finite bound the loop value is linear, with slope the
rate of the final (unbounded) bracket. -/
theorem progTaxAux_linear_above (a : ℚ) :
    ∀ (bs : List TaxBracket) (p : ℚ), boundsOk p bs = true → chainTop p bs ≤ a →
      progTaxAux a bs (some p) =
        progTaxAux (chainTop p bs) bs (some p) + (a - chainTop p bs) * finalRate bs := by
  intro bs
  induction bs with
  | nil => intro p hb _; simp [boundsOk] at hb
  | cons c bs ih =>
    intro p hb hta
    obtain ⟨lim, rate⟩ := c
    cases lim with
    | none =>
      cases bs with
      | nil =>
        have hct : chainTop p [(⟨none, rate⟩ : TaxBracket)] = p := rfl
        rw [hct] at hta ⊢
        rcases eq_or_lt_of_le hta with heq | hlt
        · rw [← heq]
          simp [progTaxAux, finalRate]
        · simp only [progTaxAux, Option.getD, min_self, if_neg (not_le.mpr hlt), le_refl,
            if_pos, progTaxAux_none, finalRate]
          ring
      | cons b' bs' => simp [boundsOk] at hb
    | some q =>
      simp only [boundsOk, Bool.and_eq_true, decide_eq_true_eq] at hb
      obtain ⟨hpq, hb2⟩ := hb
      cases bs with
      | nil => simp [boundsOk] at hb2
      | cons b' bs' =>
        have hct : chainTop p (⟨some q, rate⟩ :: b' :: bs') = chainTop q (b' :: bs') := rfl
        rw [hct] at hta ⊢
        have hqL : q ≤ chainTop q (b' :: bs') := le_chainTop (b' :: bs') q hb2
        have hpa : p < a := lt_of_lt_of_le (lt_of_lt_of_le hpq hqL) hta
        have hpL : p < chainTop q (b' :: bs') := lt_of_lt_of_le hpq hqL
        have hfr : finalRate (⟨some q, rate⟩ :: b' :: bs') = finalRate (b' :: bs') := rfl
        rw [hfr, progTaxAux_cons_some a p q rate (b' :: bs'),
          progTaxAux_cons_some (chainTop q (b' :: bs')) p q rate (b' :: bs'),
          if_neg (not_le.mpr hpa), if_neg (not_le.mpr hpL),
          min_eq_right (le_trans hqL hta), min_eq_right hqL, ih q hb2 hta]
        ring

/-! ## Concrete table facts -/

theorem validTable_parts {bs : List TaxBracket} (h : validTable bs = true) :
    boundsOk 0 bs = true ∧ ratesOk bs = true := by
  simpa [validTable, Bool.and_eq_true] using h

theorem validTable_new : validTable PIT_BRACKETS_NEW = true := by
  norm_num [validTable, boundsOk, ratesOk, PIT_BRACKETS_NEW, List.all]

theorem validTable_old : validTable PIT_BRACKETS_OLD = true := by
  norm_num [validTable, boundsOk, ratesOk, PIT_BRACKETS_OLD, List.all]

/-- The progressive tax of a valid table never exceeds the (nonnegative)
amount it is applied to. -/
theorem progressive_tax_le (t : ℚ) (ht : 0 ≤ t) (bs : List TaxBracket)
    (hv : validTable bs = true) : calculate_progressive_tax t bs ≤ t := by
  obtain ⟨hb, hr⟩ := validTable_parts hv
  have h := progTaxAux_le t bs 0 hb hr
  rwa [sub_zero, max_eq_right ht] at h

/-! ## Claims about the bracket engine -/

/-- Claim C1: for every amount at or above 0 and every valid bracket
table, `calculate_progressive_tax` realises the specified marginal
iteration: it equals the clamped slice sum `computeProgressiveTax`
written from the spec; it returns 0 when the amount is 0; and for an
amount at or beyond every finite bound the final unbounded bracket
contributes `(amount - lastFiniteBound) * finalRate` on top of the tax
accumulated over the finite brackets. -/
theorem progressive_tax_spec (amount : ℚ) (bs : List TaxBracket)
    (h0 : 0 ≤ amount) (hv : validTable bs = true) :
    calculate_progressive_tax amount bs = computeProgressiveTax amount bs
    ∧ calculate_progressive_tax 0 bs = 0
    ∧ (lastFiniteBound bs ≤ amount →
        calculate_progressive_tax amount bs =
          calculate_progressive_tax (lastFiniteBound bs) bs
            + (amount - lastFiniteBound bs) * finalRate bs) := by
  obtain ⟨hb, hr⟩ := validTable_parts hv
  refine ⟨progTaxAux_eq_specSliceSum amount bs 0 hb, ?_, ?_⟩
  · cases bs with
    | nil => rfl
    | cons b bs' => simp [calculate_progressive_tax, progTaxAux]
  · intro hL
    exact progTaxAux_linear_above amount bs 0 hb hL

/-- Witness for C1 at amount 1000000 and the new-law table. -/
theorem progressive_tax_spec_witness :
    (0 ≤ (1000000 : ℚ)) ∧ validTable PIT_BRACKETS_NEW = true
    ∧ (calculate_progressive_tax 1000000 PIT_BRACKETS_NEW =
          computeProgressiveTax 1000000 PIT_BRACKETS_NEW
        ∧ calculate_progressive_tax 0 PIT_BRACKETS_NEW = 0
        ∧ (lastFiniteBound PIT_BRACKETS_NEW ≤ 1000000 →
            calculate_progressive_tax 1000000 PIT_BRACKETS_NEW =
              calculate_progressive_tax (lastFiniteBound PIT_BRACKETS_NEW) PIT_BRACKETS_NEW
                + (1000000 - lastFiniteBound PIT_BRACKETS_NEW) * finalRate PIT_BRACKETS_NEW)) :=
  ⟨by norm_num, validTable_new,
    progressive_tax_spec 1000000 PIT_BRACKETS_NEW (by norm_num) validTable_new⟩

/-- Claim C9: the progressive tax of a valid bracket table is
monotonically non-decreasing in the amount. -/
theorem progressive_tax_mono (bs : List TaxBracket) (a b : ℚ)
    (h0 : 0 ≤ a) (hab : a ≤ b) (hv : validTable bs = true) :
    calculate_progressive_tax a bs ≤ calculate_progressive_tax b bs := by
  obtain ⟨hb, hr⟩ := validTable_parts hv
  exact progTaxAux_mono hab bs 0 hb hr

/-- Witness for C9 at amounts 500000 and 2000000 on the old-law table. -/
theorem progressive_tax_mono_witness :
    (0 ≤ (500000 : ℚ)) ∧ ((500000 : ℚ) ≤ 2000000) ∧ validTable PIT_BRACKETS_OLD = true
    ∧ calculate_progressive_tax 500000 PIT_BRACKETS_OLD ≤
        calculate_progressive_tax 2000000 PIT_BRACKETS_OLD :=
  ⟨by norm_num, by norm_num, validTable_old,
    progressive_tax_mono PIT_BRACKETS_OLD 500000 2000000 (by norm_num) (by norm_num)
      validTable_old⟩

/-- Claim C10: on both hard-coded PIT tables the progressive tax never
exceeds the amount, and consequently the annual PAYE of
`calculate_pit` never exceeds the taxable income it is computed from. -/
theorem progressive_tax_le_amount (amount : ℚ) (h0 : 0 ≤ amount) :
    calculate_progressive_tax amount PIT_BRACKETS_NEW ≤ amount
    ∧ calculate_progressive_tax amount PIT_BRACKETS_OLD ≤ amount
    ∧ ∀ (d : InputData) (use_old_law : Bool),
        (calculate_pit d use_old_law).annual_paye ≤ (calculate_pit d use_old_law).taxable_income := by
  refine ⟨progressive_tax_le amount h0 _ validTable_new,
    progressive_tax_le amount h0 _ validTable_old, ?_⟩
  intro d law
  cases law with
  | false =>
    simp only [calculate_pit]
    exact progressive_tax_le _ (le_max_left 0 _) _ validTable_new
  | true =>
    simp only [calculate_pit]
    exact progressive_tax_le _ (le_max_left 0 _) _ validTable_old

/-- Witness for C10 at amount 3000000. -/
theorem progressive_tax_le_amount_witness :
    (0 ≤ (3000000 : ℚ))
    ∧ (calculate_progressive_tax 3000000 PIT_BRACKETS_NEW ≤ 3000000
        ∧ calculate_progressive_tax 3000000 PIT_BRACKETS_OLD ≤ 3000000
        ∧ ∀ (d : InputData) (use_old_law : Bool),
            (calculate_pit d use_old_law).annual_paye ≤
              (calculate_pit d use_old_law).taxable_income) :=
  ⟨by norm_num, progressive_tax_le_amount 3000000 (by norm_num)⟩

/-! ## Claims about the PIT calculator -/

/-- Claim C2: for every PIT input and either regime (`use_old_law =
true` is OLD, `false` is NEW), gross income is basic plus effective
housing plus transport plus other allowances — capital gains and
digital-asset gains excluded — relief is 1 percent of gross plus
200000 under OLD and 20 percent of gross plus 200000 under NEW,
deductions are pension plus NHF plus life insurance, taxable income is
the clamped difference, and the returned taxable income is never
negative. -/
theorem pit_gross_relief_taxable (d : InputData) (use_old_law : Bool) :
    (calculate_pit d use_old_law).gross_income =
      d.basic_salary + (calculate_pit d use_old_law).housing_allowance_capped
        + d.transport_allowance + d.other_allowances
    ∧ (calculate_pit d use_old_law).cra =
        (if use_old_law then 0.01 * (calculate_pit d use_old_law).gross_income
          else 0.20 * (calculate_pit d use_old_law).gross_income) + 200000
    ∧ (calculate_pit d use_old_law).taxable_income =
        max 0 ((calculate_pit d use_old_law).gross_income - (calculate_pit d use_old_law).cra
          - (d.pension + d.nhf + d.life_insurance))
    ∧ 0 ≤ (calculate_pit d use_old_law).taxable_income := by
  cases use_old_law <;> exact ⟨rfl, rfl, rfl, le_max_left 0 _⟩

/-- Claim C5: under the NEW regime the used and reported housing
allowance is the raw input capped at 500000, hence never above 500000;
under the OLD regime it is the raw input unchanged. -/
theorem pit_housing_cap_rule (d : InputData) :
    (calculate_pit d false).housing_allowance_capped = min d.housing_allowance 500000
    ∧ (calculate_pit d false).housing_allowance_capped ≤ 500000
    ∧ (calculate_pit d false).gross_income =
        d.basic_salary + min d.housing_allowance 500000
          + d.transport_allowance + d.other_allowances
    ∧ (calculate_pit d true).housing_allowance_capped = d.housing_allowance :=
  ⟨rfl, min_le_right d.housing_allowance 500000, rfl, rfl⟩

/-- Claim C6: capital-gains tax is the flat regime rate (5 percent
OLD, 10 percent NEW) on the summed gains; total tax is annual PAYE
plus capital-gains tax; net income is gross plus gains minus total
tax; and the gains never flow into taxable income or the bracket
engine — changing them leaves taxable income and annual PAYE
unchanged. -/
theorem pit_capital_gains_flat (d : InputData) (use_old_law : Bool) :
    (calculate_pit d use_old_law).capital_gains_tax =
      (d.capital_gains + d.digital_assets) * (if use_old_law then 0.05 else 0.10)
    ∧ (calculate_pit d use_old_law).total_tax =
        (calculate_pit d use_old_law).annual_paye
          + (calculate_pit d use_old_law).capital_gains_tax
    ∧ (calculate_pit d use_old_law).net_income =
        (calculate_pit d use_old_law).gross_income + d.capital_gains + d.digital_assets
          - (calculate_pit d use_old_law).total_tax
    ∧ ∀ g g' : ℚ,
        (calculate_pit { d with capital_gains := g, digital_assets := g' }
            use_old_law).taxable_income = (calculate_pit d use_old_law).taxable_income
        ∧ (calculate_pit { d with capital_gains := g, digital_assets := g' }
            use_old_law).annual_paye = (calculate_pit d use_old_law).annual_paye := by
  cases use_old_law <;> exact ⟨rfl, rfl, rfl, fun g g' => ⟨rfl, rfl⟩⟩

/-! ## Claims about the CIT calculator -/

/-- Claim C3: the company tier and rate are selected by an ordered
threshold lookup with inclusive upper bounds — OLD: up to 25000000
gives 0 percent Small, up to 100000000 gives 20 percent Medium, above
that 30 percent Large; NEW: up to 50000000 gives 0 percent Small, up
to 150000000 gives 18 percent Medium, above that 25 percent Large —
and a turnover exactly at a boundary falls into the lower tier. -/
theorem cit_tier_lookup (d : InputData) :
    ((calculate_cit d true).cit_rate =
        (if d.turnover ≤ 25000000 then 0
          else if d.turnover ≤ 100000000 then 20 else 30)
      ∧ (calculate_cit d true).company_size =
        (if d.turnover ≤ 25000000 then "Small Company"
          else if d.turnover ≤ 100000000 then "Medium Company" else "Large Company"))
    ∧ ((calculate_cit d false).cit_rate =
        (if d.turnover ≤ 50000000 then 0
          else if d.turnover ≤ 150000000 then 18 else 25)
      ∧ (calculate_cit d false).company_size =
        (if d.turnover ≤ 50000000 then "Small Company"
          else if d.turnover ≤ 150000000 then "Medium Company" else "Large Company"))
    ∧ (calculate_cit { d with turnover := 25000000 } true).cit_rate = 0
    ∧ (calculate_cit { d with turnover := 25000000 } true).company_size = "Small Company" := by
  have hOldRate : ∀ e : InputData, (calculate_cit e true).cit_rate =
      (if e.turnover ≤ 25000000 then 0
        else if e.turnover ≤ 100000000 then 20 else 30) := by
    intro e
    show (if e.turnover ≤ 25000000 then (0.0 : ℚ)
      else if e.turnover ≤ 100000000 then 0.20 else 0.30) * 100 = _
    split_ifs <;> norm_num
  have hOldSize : ∀ e : InputData, (calculate_cit e true).company_size =
      (if e.turnover ≤ 25000000 then "Small Company"
        else if e.turnover ≤ 100000000 then "Medium Company" else "Large Company") :=
    fun e => rfl
  refine ⟨⟨hOldRate d, rfl⟩, ⟨?_, rfl⟩, ?_, ?_⟩
  · show (if d.turnover ≤ 50000000 then (0.0 : ℚ)
      else if d.turnover ≤ 150000000 then 0.18 else 0.25) * 100 = _
    split_ifs <;> norm_num
  · rw [hOldRate]
    norm_num
  · rw [hOldSize]
    norm_num

/-- Claim C8: CIT tax payable is exactly profit times the selected
rate, with no floor or clamp — a negative profit passes through as a
non-positive tax payable, strictly negative whenever the rate is
positive — and net profit is profit minus tax payable, with monthly
net profit one twelfth of it. -/
theorem cit_profit_passthrough (d : InputData) (use_old_law : Bool) :
    (calculate_cit d use_old_law).cit_payable =
        d.profit * ((calculate_cit d use_old_law).cit_rate / 100)
    ∧ (calculate_cit d use_old_law).net_profit =
        d.profit - (calculate_cit d use_old_law).cit_payable
    ∧ (calculate_cit d use_old_law).monthly_net_profit =
        (calculate_cit d use_old_law).net_profit / 12
    ∧ (d.profit < 0 → (calculate_cit d use_old_law).cit_payable ≤ 0)
    ∧ (d.profit < 0 → 0 < (calculate_cit d use_old_law).cit_rate →
        (calculate_cit d use_old_law).cit_payable < 0) := by
  refine ⟨?_, rfl, rfl, ?_, ?_⟩
  · simp only [calculate_cit]
    rw [mul_div_cancel_right₀ _ (show (100 : ℚ) ≠ 0 by norm_num)]
  · intro hp
    cases use_old_law with
    | false =>
      show d.profit * (if d.turnover ≤ 50000000 then (0.0 : ℚ)
        else if d.turnover ≤ 150000000 then 0.18 else 0.25) ≤ 0
      split_ifs <;> nlinarith
    | true =>
      show d.profit * (if d.turnover ≤ 25000000 then (0.0 : ℚ)
        else if d.turnover ≤ 100000000 then 0.20 else 0.30) ≤ 0
      split_ifs <;> nlinarith
  · intro hp hr
    cases use_old_law with
    | false =>
      replace hr : 0 < (if d.turnover ≤ 50000000 then (0.0 : ℚ)
        else if d.turnover ≤ 150000000 then 0.18 else 0.25) * 100 := hr
      show d.profit * (if d.turnover ≤ 50000000 then (0.0 : ℚ)
        else if d.turnover ≤ 150000000 then 0.18 else 0.25) < 0
      split_ifs at hr ⊢ <;> nlinarith
    | true =>
      replace hr : 0 < (if d.turnover ≤ 25000000 then (0.0 : ℚ)
        else if d.turnover ≤ 100000000 then 0.20 else 0.30) * 100 := hr
      show d.profit * (if d.turnover ≤ 25000000 then (0.0 : ℚ)
        else if d.turnover ≤ 100000000 then 0.20 else 0.30) < 0
      split_ifs at hr ⊢ <;> nlinarith

/-- Witness for C8: the large-company loss request pays a strictly
negative CIT under the new law. -/
theorem cit_profit_passthrough_witness :
    lossRequest.profit < 0 ∧ 0 < (calculate_cit lossRequest false).cit_rate
    ∧ (calculate_cit lossRequest false).cit_payable < 0 := by
  have hp : lossRequest.profit < 0 := by norm_num [lossRequest]
  have hr : 0 < (calculate_cit lossRequest false).cit_rate := by
    norm_num [calculate_cit, lossRequest]
  exact ⟨hp, hr, (cit_profit_passthrough lossRequest false).2.2.2.2 hp hr⟩

/-! ## Claims about the comparator route -/

/-- Claim C4: the route runs the same calculator under both laws,
reports the tax difference new-minus-old (total tax for PIT, CIT
payable for CIT), the net difference new-minus-old, and recommends
"Better under NEW law" exactly when the net difference is strictly
positive — a net difference of 0 yields "Better under OLD law". -/
theorem comparator_rules (d : InputData) :
    ((calculate d).comparison.recommendation =
        if 0 < (calculate d).comparison.net_difference then "Better under NEW law"
        else "Better under OLD law")
    ∧ ((calculate d).comparison.net_difference = 0 →
        (calculate d).comparison.recommendation = "Better under OLD law")
    ∧ (d.tax_type = "PIT" →
        (calculate d).comparison.tax_difference =
            (calculate_pit d false).total_tax - (calculate_pit d true).total_tax
        ∧ (calculate d).comparison.net_difference =
            (calculate_pit d false).net_income - (calculate_pit d true).net_income
        ∧ (calculate d).comparison.monthly_difference =
            (calculate_pit d false).monthly_take_home - (calculate_pit d true).monthly_take_home)
    ∧ (d.tax_type = "CIT" →
        (calculate d).comparison.tax_difference =
            (calculate_cit d false).cit_payable - (calculate_cit d true).cit_payable
        ∧ (calculate d).comparison.net_difference =
            (calculate_cit d false).net_profit - (calculate_cit d true).net_profit
        ∧ (calculate d).comparison.monthly_difference =
            (calculate_cit d false).monthly_net_profit
              - (calculate_cit d true).monthly_net_profit) := by
  by_cases h : d.tax_type = "PIT"
  · have hcal : calculate d = CalcResponse.pitResp (calculate_pit d true) (calculate_pit d false)
        { tax_difference := (calculate_pit d false).total_tax - (calculate_pit d true).total_tax
          net_difference := (calculate_pit d false).net_income - (calculate_pit d true).net_income
          monthly_difference :=
            (calculate_pit d false).monthly_take_home - (calculate_pit d true).monthly_take_home
          recommendation :=
            if 0 < (calculate_pit d false).net_income - (calculate_pit d true).net_income
            then "Better under NEW law" else "Better under OLD law" } := by
      simp [calculate, h]
    rw [hcal]
    refine ⟨rfl, ?_, fun _ => ⟨rfl, rfl, rfl⟩, fun hcit => absurd (h.symm.trans hcit) (by decide)⟩
    intro h0
    have h0q : (calculate_pit d false).net_income - (calculate_pit d true).net_income = 0 := h0
    show (if 0 < (calculate_pit d false).net_income - (calculate_pit d true).net_income
      then "Better under NEW law" else "Better under OLD law") = "Better under OLD law"
    rw [h0q]
    norm_num
  · have hcal : calculate d = CalcResponse.citResp (calculate_cit d true) (calculate_cit d false)
        { tax_difference := (calculate_cit d false).cit_payable - (calculate_cit d true).cit_payable
          net_difference := (calculate_cit d false).net_profit - (calculate_cit d true).net_profit
          monthly_difference :=
            (calculate_cit d false).monthly_net_profit - (calculate_cit d true).monthly_net_profit
          recommendation :=
            if 0 < (calculate_cit d false).net_profit - (calculate_cit d true).net_profit
            then "Better under NEW law" else "Better under OLD law" } := by
      simp [calculate, h]
    rw [hcal]
    refine ⟨rfl, ?_, fun hpit => absurd hpit h, fun _ => ⟨rfl, rfl, rfl⟩⟩
    intro h0
    have h0q : (calculate_cit d false).net_profit - (calculate_cit d true).net_profit = 0 := h0
    show (if 0 < (calculate_cit d false).net_profit - (calculate_cit d true).net_profit
      then "Better under NEW law" else "Better under OLD law") = "Better under OLD law"
    rw [h0q]
    norm_num

/-- Witness for C4: the PIT worked example, the CIT worked example and
the all-zero tie-break request. -/
theorem comparator_rules_witness :
    (pitRequest.tax_type = "PIT"
      ∧ ((calculate pitRequest).comparison.tax_difference =
            (calculate_pit pitRequest false).total_tax - (calculate_pit pitRequest true).total_tax
        ∧ (calculate pitRequest).comparison.net_difference =
            (calculate_pit pitRequest false).net_income - (calculate_pit pitRequest true).net_income
        ∧ (calculate pitRequest).comparison.monthly_difference =
            (calculate_pit pitRequest false).monthly_take_home
              - (calculate_pit pitRequest true).monthly_take_home))
    ∧ (citRequest.tax_type = "CIT"
      ∧ ((calculate citRequest).comparison.tax_difference =
            (calculate_cit citRequest false).cit_payable - (calculate_cit citRequest true).cit_payable
        ∧ (calculate citRequest).comparison.net_difference =
            (calculate_cit citRequest false).net_profit - (calculate_cit citRequest true).net_profit
        ∧ (calculate citRequest).comparison.monthly_difference =
            (calculate_cit citRequest false).monthly_net_profit
              - (calculate_cit citRequest true).monthly_net_profit))
    ∧ ((calculate zeroCitRequest).comparison.net_difference = 0
      ∧ (calculate zeroCitRequest).comparison.recommendation = "Better under OLD law") := by
  have hd : (calculate zeroCitRequest).comparison.net_difference =
      (calculate_cit zeroCitRequest false).net_profit
        - (calculate_cit zeroCitRequest true).net_profit :=
    ((comparator_rules zeroCitRequest).2.2.2 rfl).2.1
  have hz : (calculate zeroCitRequest).comparison.net_difference = 0 := by
    rw [hd]
    norm_num [calculate_cit, zeroCitRequest]
  exact ⟨⟨rfl, (comparator_rules pitRequest).2.2.1 rfl⟩,
    ⟨rfl, (comparator_rules citRequest).2.2.2 rfl⟩,
    hz, (comparator_rules zeroCitRequest).2.1 hz⟩

/-- Claim C7 counterexample: a request whose `tax_type` is `"GIFT"` —
neither `"PIT"` nor `"CIT"` — does not fail: the route processes it in
the CIT branch and returns a complete CIT comparison result (old
Medium-company result, new Small-company result, full comparison with
a recommendation).  No UnknownTaxType error exists in the route. -/
theorem calculate_unknown_type_counterexample :
    unknownTypeRequest.tax_type ≠ "PIT" ∧ unknownTypeRequest.tax_type ≠ "CIT"
    ∧ calculate unknownTypeRequest =
        CalcResponse.citResp (calculate_cit unknownTypeRequest true)
          (calculate_cit unknownTypeRequest false)
          { tax_difference := -200000
            net_difference := 200000
            monthly_difference := 50000 / 3
            recommendation := "Better under NEW law" } := by
  have h : unknownTypeRequest.tax_type ≠ "PIT" := by decide
  refine ⟨h, by decide, ?_⟩
  simp only [calculate]
  rw [if_neg h]
  norm_num [calculate_cit, unknownTypeRequest, Comparison.mk.injEq]

/-- Claim C7 (amended): the route never fails on an unknown tax type;
every request whose `tax_type` differs from `"PIT"` — `"CIT"` and
unknown discriminators alike — is routed to the CIT branch and yields
a complete CIT comparison result. -/
theorem calculate_non_pit_routes_to_cit (d : InputData) (h : d.tax_type ≠ "PIT") :
    (calculate d).isCit = true
    ∧ calculate d =
        CalcResponse.citResp (calculate_cit d true) (calculate_cit d false)
          { tax_difference :=
              (calculate_cit d false).cit_payable - (calculate_cit d true).cit_payable
            net_difference :=
              (calculate_cit d false).net_profit - (calculate_cit d true).net_profit
            monthly_difference :=
              (calculate_cit d false).monthly_net_profit - (calculate_cit d true).monthly_net_profit
            recommendation :=
              if 0 < (calculate_cit d false).net_profit - (calculate_cit d true).net_profit
              then "Better under NEW law" else "Better under OLD law" } := by
  have hcal : calculate d =
      CalcResponse.citResp (calculate_cit d true) (calculate_cit d false)
        { tax_difference :=
            (calculate_cit d false).cit_payable - (calculate_cit d true).cit_payable
          net_difference :=
            (calculate_cit d false).net_profit - (calculate_cit d true).net_profit
          monthly_difference :=
            (calculate_cit d false).monthly_net_profit - (calculate_cit d true).monthly_net_profit
          recommendation :=
            if 0 < (calculate_cit d false).net_profit - (calculate_cit d true).net_profit
            then "Better under NEW law" else "Better under OLD law" } := by
    simp [calculate, h]
  exact ⟨by rw [hcal]; rfl, hcal⟩

/-- Witness for the amended C7 at the concrete unknown-type request. -/
theorem calculate_non_pit_routes_to_cit_witness :
    unknownTypeRequest.tax_type ≠ "PIT"
    ∧ ((calculate unknownTypeRequest).isCit = true
      ∧ calculate unknownTypeRequest =
          CalcResponse.citResp (calculate_cit unknownTypeRequest true)
            (calculate_cit unknownTypeRequest false)
            { tax_difference :=
                (calculate_cit unknownTypeRequest false).cit_payable
                  - (calculate_cit unknownTypeRequest true).cit_payable
              net_difference :=
                (calculate_cit unknownTypeRequest false).net_profit
                  - (calculate_cit unknownTypeRequest true).net_profit
              monthly_difference :=
                (calculate_cit unknownTypeRequest false).monthly_net_profit
                  - (calculate_cit unknownTypeRequest true).monthly_net_profit
              recommendation :=
                if 0 < (calculate_cit unknownTypeRequest false).net_profit
                    - (calculate_cit unknownTypeRequest true).net_profit
                then "Better under NEW law" else "Better under OLD law" }) :=
  ⟨by decide, calculate_non_pit_routes_to_cit unknownTypeRequest (by decide)⟩
